import Mathlib

/-!
Verification development for the wholesale-registration proxy action
(`src/unnamed/part_000`, lines 995-2187, with `src/app/routes/apps.proxy.jsx`
a reduced variant of the same handler).

The handler is a straight-line sequence of conditional GraphQL calls against
the platform directory.  We embed it shallowly: every remote response the
handler branches on is a field of a `Remote` record, and the handler itself
becomes the pure function `action : Submission -> Remote -> Response × List Call`
that returns the JSON response together with the ordered trace of remote
calls it issued.  Logging, authentication plumbing and the inline storefront
markup are outside the modelled scope; the model starts at the
`GetCustomerByEmail` query and covers everything through the final
`json(...)` return, including the two early `{ error, details }` returns on
company-creation failure.

JavaScript truthiness on strings (empty string is falsy) is modelled by
`truthy`, and the recurring pattern `x && x.trim()` by `presentNonempty`.
-/

/-- A customer node as returned by the directory queries: only the fields the
handler branches on (`id`, `email`, `tags`) are kept. -/
structure Customer where
  id : String
  email : String
  tags : List String
deriving Repr, DecidableEq

/-- A company metafield node (`namespace` is spelled `ns`). -/
structure Metafield where
  ns : String
  key : String
  value : String
deriving Repr, DecidableEq

/-- A company node with its metafields, from `GetCompaniesByEmailMetafield`. -/
structure Company where
  id : String
  metafields : List Metafield
deriving Repr, DecidableEq

/-- A company location node (`GetCompanyLocations` / `GetLocationRoles`). -/
structure CompanyLocation where
  id : String
  name : String
deriving Repr, DecidableEq

/-- A contact role node (`GetCompanyRoles`). -/
structure Role where
  id : String
  name : String
deriving Repr, DecidableEq

/-- The form fields the handler reads.  `formData.get` yields `null` or a
string; optional fields are `Option String`.  `userEmail` is taken as a plain
`String`: a `null` user email crashes the handler inside the outer
`try/catch` before the first remote call, outside the modelled scope. -/
structure Submission where
  companyName : Option String
  firstName : Option String
  lastName : Option String
  location : Option String
  taxId : Option String
  phone : Option String
  companyEmail : Option String
  userEmail : String
  address1 : Option String
  address2 : Option String
  country : Option String
  state : Option String
  city : Option String
  zipCode : Option String
deriving Repr, DecidableEq

/-- The remote responses the handler branches on, one field per call site.
Calls whose responses are only logged (metafieldsSet, address assignment,
location rename, main-contact assignment, role assignment) have no field:
the handler never reads them except into `console.log`. -/
structure Remote where
  customersByEmail : List Customer
  companies : List Company
  companyCreateErrors : List String
  companyCreateUserErrors : List String
  companyCreateId : Option String
  locations : List CompanyLocation
  taxErrors : List String
  customerCreateErrors : List String
  customerCreateUserErrors : List String
  customerCreateId : Option String
  fallback1 : List Customer
  fallback2 : List Customer
  fallback3 : List Customer
  fallbackUpdateUserErrors : List String
  contactId : Option String
  locationForRoles : Option CompanyLocation
  defaultRole : Option Role
  contactRoles : List Role
deriving Repr, DecidableEq

/-- The `CustomerInput` built for `customerUpdate` (main path and fallback
path build it identically): `phone = none` means the field is omitted. -/
structure CustomerUpdateInput where
  id : String
  firstName : Option String
  lastName : Option String
  tags : List String
  phone : Option String
deriving Repr, DecidableEq

/-- The `CustomerInput` built for `customerCreate`. -/
structure NewCustomerInput where
  firstName : Option String
  lastName : Option String
  email : String
  tags : List String
  phone : Option String
deriving Repr, DecidableEq

/-- The inline `companyContact` attached to `companyCreate` for new
customers. -/
structure ContactInput where
  email : String
  firstName : Option String
  lastName : Option String
deriving Repr, DecidableEq

/-- The `CompanyCreateInput`: `contact = none` is the existing-customer shape
(company created without inline contact).  `externalId` is `Date.now()`
-based and `note` is a constant; neither is branched on, so they are not
modelled. -/
structure CompanyCreateInput where
  name : Option String
  contact : Option ContactInput
deriving Repr, DecidableEq

/-- The address object sent to `companyLocationAssignAddress`. -/
structure AddressInput where
  address1 : String
  address2 : Option String
  city : String
  countryCode : String
  zoneCode : String
  zip : String
deriving Repr, DecidableEq

/-- One remote GraphQL call, with the data the handler sent. -/
inductive Call where
  | getCustomerByEmail (query : String)
  | updateCustomer (input : CustomerUpdateInput)
  | getCompanies
  | companyCreate (input : CompanyCreateInput)
  | metafieldsSet (ownerId : String) (ns : String) (key : String) (value : String)
  | getCompanyLocations (companyId : String)
  | updateLocationName (locationId : String) (name : String)
  | assignAddress (locationId : String) (address : AddressInput)
  | setTaxId (locationId : String) (taxId : String)
  | customerCreate (input : NewCustomerInput)
  | searchStrategy1 (query : String)
  | searchStrategy2 (query : String)
  | searchStrategy3
  | fallbackUpdateCustomer (input : CustomerUpdateInput)
  | assignCustomerAsContact (companyId : String) (customerId : String)
  | assignMainContact (companyId : String) (contactId : String)
  | getLocationRoles (companyId : String)
  | getCompanyRoles (companyId : String)
  | assignRole (contactId : String) (roleId : String) (locationId : String)
  | assignNewCustomerAsContact (companyId : String) (customerId : String)
deriving Repr, DecidableEq

/-- The aggregated result object returned by the happy-path `json(...)`. -/
structure Result where
  success : Bool
  companyId : Option String
  customerId : Option String
  message : String
  customerError : Option String
deriving Repr, DecidableEq

/-- The handler response: the result shape, or the `{ error, details }`
shape with an HTTP status (the two company-creation failure returns). -/
inductive Response where
  | ok (result : Result)
  | err (error : String) (details : List String) (status : Nat)
deriving Repr, DecidableEq

/-- JavaScript `toLowerCase`, as a structurally recursive character map (the
core `String.toLower` is not kernel-reducible). -/
def jsToLower (s : String) : String :=
  ⟨s.data.map Char.toLower⟩

/-- JavaScript `trim`: drop whitespace from both ends, structurally. -/
def jsTrim (s : String) : String :=
  ⟨((s.data.dropWhile Char.isWhitespace).reverse.dropWhile Char.isWhitespace).reverse⟩

/-- Does the character list start with the pattern list. -/
def charsStartWith : List Char → List Char → Bool
  | _, [] => true
  | [], _ :: _ => false
  | a :: as, b :: bs => a == b && charsStartWith as bs

/-- Does the pattern list occur inside the character list. -/
def charsContain : List Char → List Char → Bool
  | [], pat => pat.isEmpty
  | c :: rest, pat => charsStartWith (c :: rest) pat || charsContain rest pat

/-- JavaScript `String.prototype.includes`. -/
def includes (s pat : String) : Bool :=
  charsContain s.data pat.data

/-- JavaScript truthiness of a nullable string: `null`, `undefined` and the
empty string are falsy. -/
def truthy : Option String → Bool
  | none => false
  | some s => s != ""

/-- The recurring guard `x && x.trim()`: present and nonempty after
trimming. -/
def presentNonempty : Option String → Bool
  | none => false
  | some s => jsTrim s != ""

/-- `existingCustomer`: the first node of the `GetCustomerByEmail` response,
taken without any revalidation of its email
(`customerCheckJson.data?.customers?.edges?.[0]?.node`). -/
def existingCustomerOf (r : Remote) : Option Customer :=
  r.customersByEmail.head?

/-- The search string sent to `GetCustomerByEmail`. -/
def customerQuery (sub : Submission) : String :=
  "email:\"" ++ jsTrim (jsToLower sub.userEmail) ++ "\""

/-- Tag merge for updates: keep the existing tags and push `"wholesale"`
only when absent. -/
def mergeTags (tags : List String) : List String :=
  if tags.contains "wholesale" then tags else tags ++ ["wholesale"]

/-- The `customerUpdate` input built from the form and the located customer;
the main path and the email-conflict fallback path build it with the same
rules (merge tags, include phone only when nonempty after trimming). -/
def customerUpdateInput (sub : Submission) (c : Customer) : CustomerUpdateInput :=
  { id := c.id
    firstName := sub.firstName
    lastName := sub.lastName
    tags := mergeTags c.tags
    phone := if presentNonempty sub.phone then some (jsTrim (sub.phone.getD "")) else none }

/-- The metafield test in the company scan: namespace `"custom"`, key
`"companyEmail"`, and value equal (after lower-casing, with the input also
trimmed) to the submitted company email. -/
def metafieldMatches (companyEmail : String) (m : Metafield) : Bool :=
  m.ns == "custom" && m.key == "companyEmail" &&
    jsToLower m.value == jsTrim (jsToLower companyEmail)

/-- A company matches when some of its metafields matches. -/
def companyMatches (companyEmail : String) (c : Company) : Bool :=
  (c.metafields.find? (metafieldMatches companyEmail)).isSome

/-- Company Resolver: scan the fetched page for the first company with a
matching email metafield; short-circuits to `none` when no company email was
submitted (the query is not even issued then). -/
def findExistingCompany (companyEmail : Option String) (companies : List Company) :
    Option Company :=
  match companyEmail with
  | none => none
  | some ce => if jsTrim ce != "" then companies.find? (companyMatches ce) else none

/-- `existingCompany` for a run. -/
def existingCompanyOf (sub : Submission) (r : Remote) : Option Company :=
  findExistingCompany sub.companyEmail r.companies

/-- The `companyCreate` input: inline contact only for new customers. -/
def companyCreateInputOf (sub : Submission) (existingCustomer : Option Customer) :
    CompanyCreateInput :=
  { name := sub.companyName
    contact :=
      match existingCustomer with
      | some _ => none
      | none => some { email := sub.userEmail, firstName := sub.firstName,
                       lastName := sub.lastName } }

/-- The `customerCreate` input: fixed tags `["wholesale"]`, phone only when
nonempty after trimming. -/
def newCustomerInputOf (sub : Submission) : NewCustomerInput :=
  { firstName := sub.firstName
    lastName := sub.lastName
    email := sub.userEmail
    tags := ["wholesale"]
    phone := if presentNonempty sub.phone then some (jsTrim (sub.phone.getD "")) else none }

/-- The address object: `city`/`zip` default to `""`, `countryCode` defaults
to `"IN"` when the country is null or empty, `zoneCode` is the trimmed state,
`address2` included only when nonempty after trimming. -/
def addressInputOf (sub : Submission) : AddressInput :=
  { address1 := jsTrim (sub.address1.getD "")
    address2 := if presentNonempty sub.address2 then some (jsTrim (sub.address2.getD "")) else none
    city := jsTrim (sub.city.getD "")
    countryCode := jsTrim (match sub.country with
      | none => "IN"
      | some c => if c == "" then "IN" else c)
    zoneCode := jsTrim (sub.state.getD "")
    zip := jsTrim (sub.zipCode.getD "") }

/-- Trace of the identity phase: the email query, then (for an existing
customer) the immediate `customerUpdate`. -/
def phase1Trace (sub : Submission) (r : Remote) : List Call :=
  [Call.getCustomerByEmail (customerQuery sub)] ++
    (match existingCustomerOf r with
     | some c => [Call.updateCustomer (customerUpdateInput sub c)]
     | none => [])

/-- Trace of the company-resolution query, issued only when a company email
was submitted. -/
def companyResolveTrace (sub : Submission) : List Call :=
  if presentNonempty sub.companyEmail then [Call.getCompanies] else []

/-- Trace of the metafield write: only for a truthy company id on a newly
created company, and only when a company email was submitted. -/
def metafieldPhase (sub : Submission) (existingCompany : Option Company)
    (companyId : Option String) : List Call :=
  if truthy companyId && existingCompany.isNone then
    match sub.companyEmail with
    | some ce =>
        if jsTrim ce != "" then
          [Call.metafieldsSet (companyId.getD "") "custom" "companyEmail" (jsTrim ce)]
        else []
    | none => []
  else []

/-- Trace of the address / location-rename / tax phase. -/
def addressPhase (sub : Submission) (r : Remote) (companyId : Option String) :
    List Call :=
  if truthy companyId then
    if presentNonempty sub.address1 then
      [Call.getCompanyLocations (companyId.getD "")] ++
        (match r.locations.head? with
         | some loc =>
             (if jsTrim (sub.location.getD "") != "" then
                [Call.updateLocationName loc.id (jsTrim (sub.location.getD ""))]
              else []) ++
             [Call.assignAddress loc.id (addressInputOf sub)] ++
             (if presentNonempty sub.taxId then
                [Call.setTaxId loc.id (jsTrim (sub.taxId.getD ""))]
              else [])
         | none => [])
    else []
  else []

/-- The three-tier fallback search: strategy 1 (raw email as query), then
strategy 2 (`email:` query) when strategy 1 returned nothing, then
strategy 3 (recent-customers scan filtered client-side) when strategy 2 also
returned nothing; when the strategy-3 filter finds nothing the response of
strategy 2 is kept.  Returns the final edge list and the search trace. -/
def fallbackResults (sub : Submission) (r : Remote) : List Customer × List Call :=
  let t1 := [Call.searchStrategy1 (jsTrim sub.userEmail)]
  if r.fallback1 != [] then (r.fallback1, t1)
  else
    let t2 := t1 ++ [Call.searchStrategy2 ("email:" ++ jsTrim sub.userEmail)]
    if r.fallback2 != [] then (r.fallback2, t2)
    else
      let t3 := t2 ++ [Call.searchStrategy3]
      let matching := r.fallback3.filter
        (fun c => jsToLower c.email == jsTrim (jsToLower sub.userEmail))
      if matching != [] then (matching, t3) else (r.fallback2, t3)

/-- The exact case-insensitive filter applied to the final fallback search
response before any record is accepted. -/
def foundCustomerOf (sub : Submission) (results : List Customer) : Option Customer :=
  results.find? (fun c => jsToLower c.email == jsTrim (jsToLower sub.userEmail))

/-- Customer finalization: `(customerId, customerError, trace)`.  For an
existing customer the id was already resolved; otherwise `customerCreate`
runs, with the email-conflict fallback on the dedicated error message. -/
def customerPhase (sub : Submission) (r : Remote) (existingCustomer : Option Customer) :
    Option String × Option String × List Call :=
  match existingCustomer with
  | some c => (some c.id, none, [])
  | none =>
    let trCreate := [Call.customerCreate (newCustomerInputOf sub)]
    if r.customerCreateErrors != [] then
      (none, some "GraphQL errors in customer creation", trCreate)
    else
      match r.customerCreateUserErrors with
      | [] => (r.customerCreateId, none, trCreate)
      | msg :: _ =>
        if includes msg "Email has already been taken" then
          let search := fallbackResults sub r
          let trSearch := trCreate ++ search.2
          match foundCustomerOf sub search.1 with
          | some fc =>
              let trUpd := trSearch ++ [Call.fallbackUpdateCustomer (customerUpdateInput sub fc)]
              match r.fallbackUpdateUserErrors with
              | e :: _ => (none, some e, trUpd)
              | [] => (some fc.id, none, trUpd)
          | none => (none, some msg, trSearch)
        else (none, some msg, trCreate)

/-- The role chosen for the contact: company default role, else the first
role whose name contains `buyer` (case-insensitive), else one containing
`admin`, else the first available role. -/
def selectRole (defaultRole : Option Role) (roles : List Role) : Option Role :=
  match defaultRole with
  | some dr => some dr
  | none =>
    match roles with
    | [] => none
    | r0 :: _ =>
      match roles.find? (fun ro => includes (jsToLower ro.name) "buyer") with
      | some b => some b
      | none =>
        match roles.find? (fun ro => includes (jsToLower ro.name) "admin") with
        | some a => some a
        | none => some r0

/-- Linking phase trace: runs only when both ids are truthy.  Pre-existing
customer: contact assignment, then (only when a contact id came back) main
contact, location fetch, roles fetch and role assignment.  New customer with
a reused company: explicit contact assignment.  Otherwise nothing (the
inline contact from `companyCreate` already links them). -/
def linkPhase (r : Remote) (existingCustomer : Option Customer)
    (existingCompany : Option Company) (companyId customerId : Option String) :
    List Call :=
  if truthy companyId && truthy customerId then
    let cid := companyId.getD ""
    let uid := customerId.getD ""
    if existingCustomer.isSome then
      [Call.assignCustomerAsContact cid uid] ++
        (if truthy r.contactId then
           let ct := r.contactId.getD ""
           [Call.assignMainContact cid ct] ++ [Call.getLocationRoles cid] ++
             (match r.locationForRoles with
              | some loc =>
                  [Call.getCompanyRoles cid] ++
                    (match selectRole r.defaultRole r.contactRoles with
                     | some role => [Call.assignRole ct role.id loc.id]
                     | none => [])
              | none => [])
         else [])
    else if existingCompany.isSome then
      [Call.assignNewCustomerAsContact cid uid]
    else []
  else []

/-- Result aggregation, exactly the four-way branch at the end of the
handler. -/
def aggregate (companyId customerId : Option String) (customerError : Option String) :
    Result :=
  if truthy companyId && truthy customerId then
    { success := true, companyId := companyId, customerId := customerId
      message := "Company and customer created successfully!"
      customerError := customerError }
  else if truthy companyId && truthy customerError then
    { success := true, companyId := companyId, customerId := customerId
      message := "Company created successfully! Note: " ++ customerError.getD ""
      customerError := customerError }
  else if truthy companyId then
    { success := true, companyId := companyId, customerId := customerId
      message := "Company created successfully!"
      customerError := customerError }
  else
    { success := false, companyId := companyId, customerId := customerId
      message := "Failed to create company."
      customerError := customerError }

/-- Everything after the company id is settled: metafield write, address
phase, customer finalization, linking, aggregation. -/
def afterCompany (sub : Submission) (r : Remote) (existingCustomer : Option Customer)
    (existingCompany : Option Company) (companyId : Option String) (tr : List Call) :
    Response × List Call :=
  let trM := tr ++ metafieldPhase sub existingCompany companyId
  let trA := trM ++ addressPhase sub r companyId
  let cust := customerPhase sub r existingCustomer
  let trL := trA ++ cust.2.2 ++
    linkPhase r existingCustomer existingCompany companyId cust.1
  (Response.ok (aggregate companyId cust.1 cust.2.1), trL)

/-- The whole handler (from the first remote call to the response): identity
resolution and eager update, company resolution, company create-or-reuse
with the two hard `{ error, details }` returns on creation failure, then
`afterCompany`. -/
def action (sub : Submission) (r : Remote) : Response × List Call :=
  let existingCustomer := existingCustomerOf r
  let tr2 := phase1Trace sub r ++ companyResolveTrace sub
  match existingCompanyOf sub r with
  | some comp => afterCompany sub r existingCustomer (some comp) (some comp.id) tr2
  | none =>
    let tr3 := tr2 ++ [Call.companyCreate (companyCreateInputOf sub existingCustomer)]
    if r.companyCreateErrors != [] then
      (Response.err "GraphQL errors in company creation" r.companyCreateErrors 400, tr3)
    else if r.companyCreateUserErrors != [] then
      (Response.err "Failed to create company" r.companyCreateUserErrors 400, tr3)
    else afterCompany sub r existingCustomer none r.companyCreateId tr3

/-- Recognizer for `companyCreate` calls in a trace. -/
def isCompanyCreate : Call → Bool
  | .companyCreate _ => true
  | _ => false

/-- Recognizer for `metafieldsSet` calls in a trace. -/
def isMetafieldsSet : Call → Bool
  | .metafieldsSet _ _ _ _ => true
  | _ => false

/-- Recognizer for fallback `customerUpdate` calls in a trace. -/
def isFallbackUpdate : Call → Bool
  | .fallbackUpdateCustomer _ => true
  | _ => false

/-- Recognizer for the `{ error, details }` response shape. -/
def isErr : Response → Bool
  | .err _ _ _ => true
  | _ => false

/-- Projection of the result shape out of a response. -/
def okResult : Response → Option Result
  | .ok res => some res
  | .err _ _ _ => none


/-! Sample submissions, directory states and recognizers used by the
concrete witness and counterexample theorems. -/


def emptyRemote : Remote :=
  { customersByEmail := [], companies := [],
    companyCreateErrors := [], companyCreateUserErrors := [],
    companyCreateId := none, locations := [],
    taxErrors := [], customerCreateErrors := [], customerCreateUserErrors := [],
    customerCreateId := none, fallback1 := [], fallback2 := [],
    fallback3 := [], fallbackUpdateUserErrors := [], contactId := none,
    locationForRoles := none, defaultRole := none, contactRoles := [] }

def baseSub : Submission :=
  { companyName := some "Acme", firstName := some "Jo", lastName := some "Doe",
    location := none, taxId := none, phone := none,
    companyEmail := some "co@acme.test", userEmail := "jo@acme.test",
    address1 := some "1 Main St", address2 := none, country := none,
    state := none, city := none, zipCode := none }

def c3Customer : Customer := { id := "gid-cust-7", email := "jo@acme.test", tags := ["vip", "wholesale"] }

def c3Remote : Remote := { emptyRemote with customersByEmail := [c3Customer], companyCreateId := some "gid-co-1" }

def c4Sub : Submission := { baseSub with phone := some " 555-0100 " }

/-- Recognizer for `customerCreate` calls in a trace. -/
def isCustomerCreate : Call → Bool
  | .customerCreate _ => true
  | _ => false

def c2Other : Customer := { id := "gid-other", email := "other@else.test", tags := [] }

def c2Remote : Remote :=
  { emptyRemote with customersByEmail := [c2Other], companyCreateId := some "gid-co-2" }

def c7Remote : Remote :=
  { emptyRemote with companyCreateId := some "gid-co-9",
                     customerCreateUserErrors := ["boom"] }

def c7Result : Result :=
  { success := true, companyId := some "gid-co-9", customerId := none,
    message := "Company created successfully! Note: boom",
    customerError := some "boom" }

def c9Remote : Remote :=
  { emptyRemote with customersByEmail := [c3Customer],
                     companyCreateUserErrors := ["Name has already been taken"] }

def c1Company : Company :=
  { id := "gid-co-match",
    metafields := [{ ns := "custom", key := "companyEmail", value := "CO@acme.test" }] }

def c1Remote : Remote :=
  { emptyRemote with companies := [c1Company], customerCreateId := some "gid-cust-2" }

def c5Found : Customer := { id := "gid-fb", email := "JO@acme.test", tags := ["old"] }

def c5Remote : Remote :=
  { emptyRemote with
      companyCreateId := some "gid-co-5",
      customerCreateUserErrors := ["Email has already been taken"],
      fallback3 := [c5Found] }

def c10Remote : Remote :=
  { emptyRemote with
      companyCreateId := some "gid-co-10",
      customerCreateUserErrors := ["Email has already been taken"],
      fallback3 := [{ id := "gid-x", email := "someone@else.test", tags := [] }] }

def c8Sub : Submission := { baseSub with taxId := some " TX-99 " }

def c8Loc : CompanyLocation := { id := "gid-loc-8", name := "Default" }

def c8Remote : Remote :=
  { emptyRemote with
      customersByEmail := [c3Customer],
      companyCreateId := some "gid-co-8",
      locations := [c8Loc],
      taxErrors :=
        ["Field \x27companyLocationTaxSettingsUpdate\x27 doesn\x27t exist on type \x27Mutation\x27"] }

def c6Loc : CompanyLocation := { id := "gid-loc-9", name := "HQ" }

def c6Role : Role := { id := "r-buy", name := "Lead Buyer" }

def c6Remote : Remote :=
  { emptyRemote with
      customersByEmail := [c3Customer],
      companyCreateId := some "gid-co-6",
      contactId := some "gid-contact-1",
      locationForRoles := some c6Loc,
      contactRoles := [{ id := "r-adm", name := "Store Admin" }, c6Role] }

/-- Modelled from the spec wording of the role preference order (company
default role, else a role whose name contains buyer, else one containing
admin, else the first available role), as an orElse chain, to be compared
with the `selectRole` translated from the code. -/
def specRolePreference (defaultRole : Option Role) (roles : List Role) : Option Role :=
  defaultRole.orElse fun _ =>
    (roles.find? (fun ro => includes (jsToLower ro.name) "buyer")).orElse fun _ =>
      (roles.find? (fun ro => includes (jsToLower ro.name) "admin")).orElse fun _ =>
        roles.head?


/-! Helper lemmas about the phases of the handler. -/


lemma mem_action_trace_of_mem_phase1 (sub : Submission) (r : Remote) (x : Call)
    (hx : x ∈ phase1Trace sub r) : x ∈ (action sub r).2 := by
  unfold action afterCompany
  split <;> (try split) <;> (try split) <;> simp_all [List.mem_append]

lemma updateCustomer_mem (sub : Submission) (r : Remote) (c : Customer) (rest : List Customer)
    (h : r.customersByEmail = c :: rest) :
    Call.updateCustomer (customerUpdateInput sub c) ∈ (action sub r).2 := by
  apply mem_action_trace_of_mem_phase1
  simp [phase1Trace, existingCustomerOf, h]

lemma mergeTags_toFinset (l : List String) :
    (mergeTags l).toFinset = insert "wholesale" l.toFinset := by
  unfold mergeTags
  split
  · next hc =>
    rw [Finset.insert_eq_self.mpr]
    simp_all
  · simp [List.toFinset_append, Finset.insert_eq, Finset.union_comm]

lemma mergeTags_sublist (l : List String) : l.Sublist (mergeTags l) := by
  unfold mergeTags
  split
  · exact List.Sublist.refl l
  · exact List.sublist_append_left l _

lemma mergeTags_count (l : List String) :
    (mergeTags l).count "wholesale" = max 1 (l.count "wholesale") := by
  unfold mergeTags
  split
  · next hc =>
    have hm : "wholesale" ∈ l := by simp_all
    have : 1 ≤ l.count "wholesale" := List.count_pos_iff.mpr hm
    omega
  · next hc =>
    have hm : "wholesale" ∉ l := by simp_all
    rw [List.count_append]
    rw [List.count_eq_zero_of_not_mem hm]
    simp

lemma aggregate_companyId (ci cu ce : Option String) :
    (aggregate ci cu ce).companyId = ci := by
  unfold aggregate
  repeat' split
  all_goals rfl

lemma aggregate_customerId (ci cu ce : Option String) :
    (aggregate ci cu ce).customerId = cu := by
  unfold aggregate
  repeat' split
  all_goals rfl

lemma aggregate_customerError (ci cu ce : Option String) :
    (aggregate ci cu ce).customerError = ce := by
  unfold aggregate
  repeat' split
  all_goals rfl

lemma aggregate_success (ci cu ce : Option String) :
    (aggregate ci cu ce).success = truthy ci := by
  unfold aggregate
  repeat' split
  all_goals simp_all

lemma action_ok_existing (sub : Submission) (r : Remote) (c : Customer)
    (hc : existingCustomerOf r = some c) :
    (okResult (action sub r).1).all (fun res => res.customerId == some c.id) = true := by
  unfold action afterCompany
  split <;> (try split) <;> (try split) <;>
    simp_all [okResult, customerPhase, aggregate_customerId]

lemma customerPhase_inv (sub : Submission) (r : Remote) (ec : Option Customer) :
    (customerPhase sub r ec).1 = none ∨ (customerPhase sub r ec).2.1 = none := by
  unfold customerPhase
  repeat' split
  all_goals try simp
  all_goals (split <;> simp)

lemma action_created (sub : Submission) (r : Remote)
    (hco : existingCompanyOf sub r = none) (hcc : r.companyCreateErrors = [])
    (hcu : r.companyCreateUserErrors = []) :
    action sub r =
      (Response.ok (aggregate r.companyCreateId (customerPhase sub r (existingCustomerOf r)).1
        (customerPhase sub r (existingCustomerOf r)).2.1),
       phase1Trace sub r ++ companyResolveTrace sub ++
         [Call.companyCreate (companyCreateInputOf sub (existingCustomerOf r))] ++
         metafieldPhase sub none r.companyCreateId ++
         addressPhase sub r r.companyCreateId ++
         (customerPhase sub r (existingCustomerOf r)).2.2 ++
         linkPhase r (existingCustomerOf r) none r.companyCreateId
           (customerPhase sub r (existingCustomerOf r)).1) := by
  unfold action afterCompany
  simp [hco, hcc, hcu]

lemma action_reused (sub : Submission) (r : Remote) (comp : Company)
    (hco : existingCompanyOf sub r = some comp) :
    action sub r =
      (Response.ok (aggregate (some comp.id) (customerPhase sub r (existingCustomerOf r)).1
        (customerPhase sub r (existingCustomerOf r)).2.1),
       phase1Trace sub r ++ companyResolveTrace sub ++
         metafieldPhase sub (some comp) (some comp.id) ++
         addressPhase sub r (some comp.id) ++
         (customerPhase sub r (existingCustomerOf r)).2.2 ++
         linkPhase r (existingCustomerOf r) (some comp) (some comp.id)
           (customerPhase sub r (existingCustomerOf r)).1) := by
  unfold action afterCompany
  simp [hco]

lemma action_errGql (sub : Submission) (r : Remote)
    (hco : existingCompanyOf sub r = none) (hcc : r.companyCreateErrors ≠ []) :
    action sub r =
      (Response.err "GraphQL errors in company creation" r.companyCreateErrors 400,
       phase1Trace sub r ++ companyResolveTrace sub ++
         [Call.companyCreate (companyCreateInputOf sub (existingCustomerOf r))]) := by
  unfold action
  simp [hco, hcc]

lemma action_errUser (sub : Submission) (r : Remote)
    (hco : existingCompanyOf sub r = none) (hcc : r.companyCreateErrors = [])
    (hcu : r.companyCreateUserErrors ≠ []) :
    action sub r =
      (Response.err "Failed to create company" r.companyCreateUserErrors 400,
       phase1Trace sub r ++ companyResolveTrace sub ++
         [Call.companyCreate (companyCreateInputOf sub (existingCustomerOf r))]) := by
  unfold action
  simp [hco, hcc, hcu]

lemma aggregate_main (ci cu ce : Option String) (hinv : cu = none ∨ ce = none) :
    (aggregate ci cu ce).success = truthy ci ∧
    ((aggregate ci cu ce).success = true → truthy ce = true →
      (aggregate ci cu ce).message = "Company created successfully! Note: " ++ ce.getD "") := by
  unfold aggregate
  rcases hinv with h | h <;> subst h <;> repeat' split
  all_goals simp_all [truthy]

section SegmentLemmas

variable (p : Call → Bool)

lemma all_phase1 (sub : Submission) (r : Remote)
    (h1 : ∀ q, p (Call.getCustomerByEmail q) = true)
    (h2 : ∀ i, p (Call.updateCustomer i) = true) :
    (phase1Trace sub r).all p = true := by
  unfold phase1Trace
  split <;> simp [h1, h2]

lemma all_resolve (sub : Submission) (h : p Call.getCompanies = true) :
    (companyResolveTrace sub).all p = true := by
  unfold companyResolveTrace
  split <;> simp [h]

lemma all_metafield (sub : Submission) (eco : Option Company) (ci : Option String)
    (h : ∀ o n k v, p (Call.metafieldsSet o n k v) = true) :
    (metafieldPhase sub eco ci).all p = true := by
  unfold metafieldPhase
  repeat' split
  all_goals simp [h]

lemma all_address (sub : Submission) (r : Remote) (ci : Option String)
    (h1 : ∀ s, p (Call.getCompanyLocations s) = true)
    (h2 : ∀ a b, p (Call.updateLocationName a b) = true)
    (h3 : ∀ a ad, p (Call.assignAddress a ad) = true)
    (h4 : ∀ a b, p (Call.setTaxId a b) = true) :
    (addressPhase sub r ci).all p = true := by
  unfold addressPhase
  repeat' split
  all_goals simp [h1, h2, h3, h4]

lemma all_search (sub : Submission) (r : Remote)
    (h1 : ∀ q, p (Call.searchStrategy1 q) = true)
    (h2 : ∀ q, p (Call.searchStrategy2 q) = true)
    (h3 : p Call.searchStrategy3 = true) :
    ((fallbackResults sub r).2).all p = true := by
  unfold fallbackResults
  dsimp only
  split
  · simp [h1]
  · split
    · simp [h1, h2]
    · split <;> simp [h1, h2, h3]

lemma all_customer (sub : Submission) (r : Remote) (ec : Option Customer)
    (hc : ∀ i, p (Call.customerCreate i) = true)
    (h1 : ∀ q, p (Call.searchStrategy1 q) = true)
    (h2 : ∀ q, p (Call.searchStrategy2 q) = true)
    (h3 : p Call.searchStrategy3 = true)
    (hf : ∀ i, p (Call.fallbackUpdateCustomer i) = true) :
    ((customerPhase sub r ec).2.2).all p = true := by
  have hs := all_search p sub r h1 h2 h3
  rw [List.all_eq_true] at hs
  unfold customerPhase
  repeat' split
  all_goals try simp [hc, hf, hs]
  all_goals try (split <;> simp [hc, hf, hs])
  all_goals first
    | exact hs
    | (intro a ha
       rcases ha with ha | rfl <;> first | exact hs a ha | exact hf _)

lemma all_link (r : Remote) (ec : Option Customer) (eco : Option Company)
    (ci cu : Option String)
    (h1 : ∀ a b, p (Call.assignCustomerAsContact a b) = true)
    (h2 : ∀ a b, p (Call.assignMainContact a b) = true)
    (h3 : ∀ a, p (Call.getLocationRoles a) = true)
    (h4 : ∀ a, p (Call.getCompanyRoles a) = true)
    (h5 : ∀ a b c, p (Call.assignRole a b c) = true)
    (h6 : ∀ a b, p (Call.assignNewCustomerAsContact a b) = true) :
    (linkPhase r ec eco ci cu).all p = true := by
  unfold linkPhase
  repeat' split
  all_goals simp [h1, h2, h3, h4, h5, h6]

end SegmentLemmas

lemma existingCompanyOf_eq_find (sub : Submission) (r : Remote) (ce : String)
    (hce : sub.companyEmail = some ce) (hne : jsTrim ce ≠ "") :
    existingCompanyOf sub r = r.companies.find? (companyMatches ce) := by
  unfold existingCompanyOf findExistingCompany
  rw [hce]
  simp [hne]

lemma metafieldPhase_some (sub : Submission) (comp : Company) (ci : Option String) :
    metafieldPhase sub (some comp) ci = [] := by
  unfold metafieldPhase
  simp

lemma linkPhase_noCustomer (r : Remote) (ec : Option Customer) (eco : Option Company)
    (ci : Option String) : linkPhase r ec eco ci none = [] := by
  unfold linkPhase
  simp [truthy]

lemma customerPhase_conflict_notfound (sub : Submission) (r : Remote) (msg : String)
    (tl : List String) (hgql : r.customerCreateErrors = [])
    (huerr : r.customerCreateUserErrors = msg :: tl)
    (hmsg : includes msg "Email has already been taken" = true)
    (hnone : foundCustomerOf sub (fallbackResults sub r).1 = none) :
    customerPhase sub r none =
      (none, some msg,
       Call.customerCreate (newCustomerInputOf sub) :: (fallbackResults sub r).2) := by
  unfold customerPhase
  simp [hgql, huerr, hmsg, hnone]

lemma customerPhase_conflict_found (sub : Submission) (r : Remote) (msg : String)
    (tl : List String) (fc : Customer) (hgql : r.customerCreateErrors = [])
    (huerr : r.customerCreateUserErrors = msg :: tl)
    (hmsg : includes msg "Email has already been taken" = true)
    (hfound : foundCustomerOf sub (fallbackResults sub r).1 = some fc)
    (hupd : r.fallbackUpdateUserErrors = []) :
    customerPhase sub r none =
      (some fc.id, none,
       Call.customerCreate (newCustomerInputOf sub) ::
         ((fallbackResults sub r).2 ++
           [Call.fallbackUpdateCustomer (customerUpdateInput sub fc)])) := by
  unfold customerPhase
  simp [hgql, huerr, hmsg, hfound, hupd]

lemma strategy1_mem (sub : Submission) (r : Remote) :
    Call.searchStrategy1 (jsTrim sub.userEmail) ∈ (fallbackResults sub r).2 := by
  unfold fallbackResults
  dsimp only
  repeat' split
  all_goals simp

lemma strategy2_mem (sub : Submission) (r : Remote) (h1 : r.fallback1 = []) :
    Call.searchStrategy2 ("email:" ++ jsTrim sub.userEmail) ∈ (fallbackResults sub r).2 := by
  unfold fallbackResults
  dsimp only
  repeat' split
  all_goals simp_all

lemma strategy3_mem (sub : Submission) (r : Remote) (h1 : r.fallback1 = [])
    (h2 : r.fallback2 = []) :
    Call.searchStrategy3 ∈ (fallbackResults sub r).2 := by
  unfold fallbackResults
  dsimp only
  repeat' split
  all_goals simp_all

lemma selectRole_eq_spec (d : Option Role) (roles : List Role) :
    selectRole d roles = specRolePreference d roles := by
  unfold selectRole specRolePreference
  cases d with
  | some dr => rfl
  | none =>
    cases roles with
    | nil => rfl
    | cons r0 rs =>
      cases hb : (r0 :: rs).find? (fun ro => includes (jsToLower ro.name) "buyer") with
      | some b => simp [hb, Option.orElse]
      | none =>
        cases ha : (r0 :: rs).find? (fun ro => includes (jsToLower ro.name) "admin") with
        | some a => simp [hb, ha, Option.orElse]
        | none => simp [hb, ha, Option.orElse]

lemma success_existing (sub : Submission) (r : Remote) (c : Customer)
    (rest : List Customer) (cid : String)
    (hec : r.customersByEmail = c :: rest)
    (hco : existingCompanyOf sub r = none)
    (hcc : r.companyCreateErrors = []) (hcu : r.companyCreateUserErrors = [])
    (hcid : r.companyCreateId = some cid) (hcidne : cid ≠ "") :
    (okResult (action sub r).1).map Result.success = some true := by
  have hecs : existingCustomerOf r = some c := by simp [existingCustomerOf, hec]
  rw [action_created sub r hco hcc hcu, hecs, hcid]
  have hcp : customerPhase sub r (some c) = (some c.id, none, []) := rfl
  rw [hcp]
  simp [okResult, aggregate_success, truthy, hcidne]


/-! The claims. -/


/-- C1: when the submitted company email matches (case-insensitively, per the
code predicate) the custom companyEmail metafield of some fetched company,
the run reuses the first matching company id: the response carries that id,
no companyCreate mutation is issued and no metafieldsSet write occurs. -/
theorem C1_reuse_frame (sub : Submission) (r : Remote) (ce : String)
    (hce : sub.companyEmail = some ce) (hne : jsTrim ce ≠ "")
    (c : Company) (hmem : c ∈ r.companies) (hmatch : companyMatches ce c = true) :
    (existingCompanyOf sub r).isSome = true ∧
    (existingCompanyOf sub r).all (fun c0 => companyMatches ce c0) = true ∧
    (okResult (action sub r).1).map Result.companyId =
      (existingCompanyOf sub r).map (fun c0 => some c0.id) ∧
    (action sub r).2.all (fun k => !isCompanyCreate k && !isMetafieldsSet k) = true := by
  have hfind : existingCompanyOf sub r = r.companies.find? (companyMatches ce) :=
    existingCompanyOf_eq_find sub r ce hce hne
  have hsome : (r.companies.find? (companyMatches ce)).isSome :=
    List.find?_isSome.mpr ⟨c, hmem, hmatch⟩
  obtain ⟨comp, hcomp⟩ := Option.isSome_iff_exists.mp hsome
  have hco : existingCompanyOf sub r = some comp := by rw [hfind, hcomp]
  refine ⟨by rw [hco]; rfl, ?_, ?_, ?_⟩
  · rw [hco]
    simpa using List.find?_some hcomp
  · rw [action_reused sub r comp hco, hco]
    simp [okResult, aggregate_companyId]
  · rw [action_reused sub r comp hco]
    simp only [List.all_append, Bool.and_eq_true]
    refine ⟨⟨⟨⟨⟨?_, ?_⟩, ?_⟩, ?_⟩, ?_⟩, ?_⟩
    · exact all_phase1 _ sub r (fun q => rfl) (fun i => rfl)
    · exact all_resolve _ sub rfl
    · rw [metafieldPhase_some]
      rfl
    · exact all_address _ sub r (some comp.id) (fun s => rfl) (fun a b => rfl)
        (fun a ad => rfl) (fun a b => rfl)
    · exact all_customer _ sub r (existingCustomerOf r) (fun i => rfl) (fun q => rfl)
        (fun q => rfl) rfl (fun i => rfl)
    · exact all_link _ r (existingCustomerOf r) (some comp) (some comp.id) _
        (fun a b => rfl) (fun a b => rfl) (fun a => rfl) (fun a => rfl)
        (fun a b c => rfl) (fun a b => rfl)

theorem C1_witness :
    (existingCompanyOf baseSub c1Remote).isSome = true ∧
    (existingCompanyOf baseSub c1Remote).all
      (fun c0 => companyMatches "co@acme.test" c0) = true ∧
    (okResult (action baseSub c1Remote).1).map Result.companyId =
      (existingCompanyOf baseSub c1Remote).map (fun c0 => some c0.id) ∧
    (action baseSub c1Remote).2.all
      (fun k => !isCompanyCreate k && !isMetafieldsSet k) = true :=
  C1_reuse_frame baseSub c1Remote "co@acme.test" rfl (by decide) c1Company
    (by decide) (by decide)

/-- C2 counterexample: the initial identity check takes the first record of
the email-filtered query without revalidating its email.  Here the returned
record has an email different from the submitted one, yet the handler
updates it, reports it as the run customer id, and never calls
customerCreate: the returned record IS treated as a match, refuting the
claim that a differing record is not. -/
theorem C2_counterexample :
    jsToLower c2Other.email ≠ jsTrim (jsToLower baseSub.userEmail) ∧
    existingCustomerOf c2Remote = some c2Other ∧
    Call.updateCustomer (customerUpdateInput baseSub c2Other) ∈ (action baseSub c2Remote).2 ∧
    (okResult (action baseSub c2Remote).1).map Result.customerId = some (some "gid-other") ∧
    (action baseSub c2Remote).2.all (fun k => !isCustomerCreate k) = true := by
  refine ⟨by decide, rfl, ?_, ?_, ?_⟩ <;> decide

/-- C2 amended: the handler takes the first customer returned by the
email-filtered query as the existing customer without revalidating its
email; whatever its email, that record is updated and its id is reported as
the customer id of the run.  Exact case-insensitive revalidation is applied
only in the email-conflict fallback path. -/
theorem C2_amended (sub : Submission) (r : Remote) (c : Customer)
    (rest : List Customer) (h : r.customersByEmail = c :: rest) :
    existingCustomerOf r = some c ∧
    Call.updateCustomer (customerUpdateInput sub c) ∈ (action sub r).2 ∧
    (okResult (action sub r).1).all (fun res => res.customerId == some c.id) = true :=
  ⟨by simp [existingCustomerOf, h], updateCustomer_mem sub r c rest h,
   action_ok_existing sub r c (by simp [existingCustomerOf, h])⟩

theorem C2_amended_witness :
    existingCustomerOf c2Remote = some c2Other ∧
    Call.updateCustomer (customerUpdateInput baseSub c2Other) ∈ (action baseSub c2Remote).2 ∧
    (okResult (action baseSub c2Remote).1).all
      (fun res => res.customerId == some c2Other.id) = true :=
  C2_amended baseSub c2Remote c2Other [] rfl

/-- C3: for a submission whose email matched an existing customer, the tags
sent in the customer update are the set union of the prior tags and
wholesale: the prior tag list is kept as a sublist, the tag set gains
exactly wholesale, and no duplicate wholesale entry is introduced. -/
theorem C3_update_tags_union (sub : Submission) (r : Remote) (c : Customer)
    (rest : List Customer) (h : r.customersByEmail = c :: rest) :
    Call.updateCustomer (customerUpdateInput sub c) ∈ (action sub r).2 ∧
    (customerUpdateInput sub c).id = c.id ∧
    (customerUpdateInput sub c).tags.toFinset = insert "wholesale" c.tags.toFinset ∧
    c.tags.Sublist (customerUpdateInput sub c).tags ∧
    (customerUpdateInput sub c).tags.count "wholesale" = max 1 (c.tags.count "wholesale") :=
  ⟨updateCustomer_mem sub r c rest h, rfl, mergeTags_toFinset c.tags,
   mergeTags_sublist c.tags, mergeTags_count c.tags⟩

theorem C3_witness :
    Call.updateCustomer (customerUpdateInput baseSub c3Customer) ∈ (action baseSub c3Remote).2 ∧
    (customerUpdateInput baseSub c3Customer).id = c3Customer.id ∧
    (customerUpdateInput baseSub c3Customer).tags.toFinset =
      insert "wholesale" c3Customer.tags.toFinset ∧
    c3Customer.tags.Sublist (customerUpdateInput baseSub c3Customer).tags ∧
    (customerUpdateInput baseSub c3Customer).tags.count "wholesale" =
      max 1 (c3Customer.tags.count "wholesale") :=
  C3_update_tags_union baseSub c3Remote c3Customer [] rfl

/-- C4: in the update input for an existing customer the phone equals the
trimmed submitted phone when it is nonempty after trimming, and the field is
omitted otherwise. -/
theorem C4_update_phone (sub : Submission) (r : Remote) (c : Customer)
    (rest : List Customer) (h : r.customersByEmail = c :: rest) :
    Call.updateCustomer (customerUpdateInput sub c) ∈ (action sub r).2 ∧
    (presentNonempty sub.phone = true →
      (customerUpdateInput sub c).phone = some (jsTrim (sub.phone.getD ""))) ∧
    (presentNonempty sub.phone = false → (customerUpdateInput sub c).phone = none) := by
  refine ⟨updateCustomer_mem sub r c rest h, ?_, ?_⟩ <;>
    intro hp <;> simp [customerUpdateInput, hp]

theorem C4_witness :
    Call.updateCustomer (customerUpdateInput c4Sub c3Customer) ∈ (action c4Sub c3Remote).2 ∧
    (presentNonempty c4Sub.phone = true →
      (customerUpdateInput c4Sub c3Customer).phone = some (jsTrim (c4Sub.phone.getD ""))) ∧
    (presentNonempty c4Sub.phone = false →
      (customerUpdateInput c4Sub c3Customer).phone = none) :=
  C4_update_phone c4Sub c3Remote c3Customer [] rfl

/-- C5: when customerCreate fails with the email-taken userError and company
creation succeeded, the handler runs the fallback search (strategy 1 always,
strategy 2 when strategy 1 returned nothing, strategy 3 when strategy 2 also
returned nothing), updates the located record with the same merge-rule input
builder as the existing-customer path, and on a clean fallback update the
final response is the result shape with success true, customerError null and
the located customer id. -/
theorem C5_email_conflict_fallback (sub : Submission) (r : Remote) (cid msg : String)
    (tl : List String) (fc : Customer)
    (hec : r.customersByEmail = [])
    (hco : existingCompanyOf sub r = none)
    (hcc : r.companyCreateErrors = []) (hcu : r.companyCreateUserErrors = [])
    (hcid : r.companyCreateId = some cid) (hcidne : cid ≠ "")
    (hgql : r.customerCreateErrors = [])
    (huerr : r.customerCreateUserErrors = msg :: tl)
    (hmsg : includes msg "Email has already been taken" = true)
    (hfound : foundCustomerOf sub (fallbackResults sub r).1 = some fc)
    (hupd : r.fallbackUpdateUserErrors = []) :
    Call.searchStrategy1 (jsTrim sub.userEmail) ∈ (action sub r).2 ∧
    (r.fallback1 = [] →
      Call.searchStrategy2 ("email:" ++ jsTrim sub.userEmail) ∈ (action sub r).2) ∧
    (r.fallback1 = [] → r.fallback2 = [] → Call.searchStrategy3 ∈ (action sub r).2) ∧
    Call.fallbackUpdateCustomer (customerUpdateInput sub fc) ∈ (action sub r).2 ∧
    (okResult (action sub r).1).map Result.success = some true ∧
    (okResult (action sub r).1).map Result.customerError = some none ∧
    (okResult (action sub r).1).map Result.customerId = some (some fc.id) := by
  have hecn : existingCustomerOf r = none := by simp [existingCustomerOf, hec]
  have hcp := customerPhase_conflict_found sub r msg tl fc hgql huerr hmsg hfound hupd
  rw [action_created sub r hco hcc hcu, hecn, hcp]
  refine ⟨?_, ?_, ?_, ?_, ?_, ?_, ?_⟩
  · simp only [List.mem_append, List.mem_cons]
    exact Or.inl (Or.inr (Or.inr (Or.inl (strategy1_mem sub r))))
  · intro h1
    simp only [List.mem_append, List.mem_cons]
    exact Or.inl (Or.inr (Or.inr (Or.inl (strategy2_mem sub r h1))))
  · intro h1 h2
    simp only [List.mem_append, List.mem_cons]
    exact Or.inl (Or.inr (Or.inr (Or.inl (strategy3_mem sub r h1 h2))))
  · simp
  · rw [hcid]
    simp [okResult, aggregate_success, truthy, hcidne]
  · simp [okResult, aggregate_customerError]
  · simp [okResult, aggregate_customerId]

theorem C5_witness :
    Call.searchStrategy1 (jsTrim baseSub.userEmail) ∈ (action baseSub c5Remote).2 ∧
    (c5Remote.fallback1 = [] →
      Call.searchStrategy2 ("email:" ++ jsTrim baseSub.userEmail) ∈ (action baseSub c5Remote).2) ∧
    (c5Remote.fallback1 = [] → c5Remote.fallback2 = [] →
      Call.searchStrategy3 ∈ (action baseSub c5Remote).2) ∧
    Call.fallbackUpdateCustomer (customerUpdateInput baseSub c5Found) ∈ (action baseSub c5Remote).2 ∧
    (okResult (action baseSub c5Remote).1).map Result.success = some true ∧
    (okResult (action baseSub c5Remote).1).map Result.customerError = some none ∧
    (okResult (action baseSub c5Remote).1).map Result.customerId = some (some c5Found.id) :=
  C5_email_conflict_fallback baseSub c5Remote "gid-co-5" "Email has already been taken"
    [] c5Found rfl (by decide) rfl rfl rfl (by decide) rfl rfl (by decide)
    (by decide) rfl

/-- C6: for a pre-existing customer with both ids present, the handler
issues companyAssignCustomerAsContact, then (a contact id having been
returned) companyAssignMainContact, the location fetch, the roles fetch and
the role assignment at the first location, contiguously in that order at
the end of the trace; the selected role follows the spec preference chain
(default role, else buyer, else admin, else first); and failure of the
linking steps does not make success false: the run with no contact id
returned still reports success true. -/
theorem C6_link_sequence (sub : Submission) (r : Remote) (c : Customer)
    (rest : List Customer) (cid ct : String) (loc : CompanyLocation) (role : Role)
    (hec : r.customersByEmail = c :: rest) (hcnid : c.id ≠ "")
    (hco : existingCompanyOf sub r = none)
    (hcc : r.companyCreateErrors = []) (hcu : r.companyCreateUserErrors = [])
    (hcid : r.companyCreateId = some cid) (hcidne : cid ≠ "")
    (hct : r.contactId = some ct) (hctne : ct ≠ "")
    (hloc : r.locationForRoles = some loc)
    (hrole : selectRole r.defaultRole r.contactRoles = some role) :
    [Call.assignCustomerAsContact cid c.id, Call.assignMainContact cid ct,
     Call.getLocationRoles cid, Call.getCompanyRoles cid,
     Call.assignRole ct role.id loc.id] <:+ (action sub r).2 ∧
    selectRole r.defaultRole r.contactRoles =
      specRolePreference r.defaultRole r.contactRoles ∧
    (okResult (action sub r).1).map Result.success = some true ∧
    (okResult (action sub { r with contactId := none }).1).map Result.success =
      some true := by
  have hecs : existingCustomerOf r = some c := by simp [existingCustomerOf, hec]
  have hcp : customerPhase sub r (some c) = (some c.id, none, []) := rfl
  refine ⟨?_, selectRole_eq_spec _ _, ?_, ?_⟩
  · rw [action_created sub r hco hcc hcu, hecs, hcp, hcid]
    have hlink : linkPhase r (some c) none (some cid) (some c.id) =
        [Call.assignCustomerAsContact cid c.id, Call.assignMainContact cid ct,
         Call.getLocationRoles cid, Call.getCompanyRoles cid,
         Call.assignRole ct role.id loc.id] := by
      unfold linkPhase
      simp [truthy, hcidne, hcnid, hct, hctne, hloc, hrole]
    rw [hlink]
    exact List.suffix_append _ _
  · exact success_existing sub r c rest cid hec hco hcc hcu hcid hcidne
  · exact success_existing sub { r with contactId := none } c rest cid hec
      hco hcc hcu hcid hcidne

theorem C6_witness :
    [Call.assignCustomerAsContact "gid-co-6" c3Customer.id,
     Call.assignMainContact "gid-co-6" "gid-contact-1",
     Call.getLocationRoles "gid-co-6", Call.getCompanyRoles "gid-co-6",
     Call.assignRole "gid-contact-1" c6Role.id c6Loc.id] <:+ (action baseSub c6Remote).2 ∧
    selectRole c6Remote.defaultRole c6Remote.contactRoles =
      specRolePreference c6Remote.defaultRole c6Remote.contactRoles ∧
    (okResult (action baseSub c6Remote).1).map Result.success = some true ∧
    (okResult (action baseSub { c6Remote with contactId := none }).1).map
      Result.success = some true :=
  C6_link_sequence baseSub c6Remote c3Customer [] "gid-co-6" "gid-contact-1"
    c6Loc c6Role rfl (by decide) (by decide) rfl rfl rfl (by decide) rfl
    (by decide) rfl (by decide)

/-- C7: for every run that returns the result shape, success is true exactly
when a truthy company id is present; and whenever success holds together
with a truthy customerError, the message incorporates that customerError as
its suffix after the fixed note text.  The result shape always carries the
five fields success, companyId, customerId, message, customerError by
construction of `Result`. -/
theorem C7_success_iff_companyId (sub : Submission) (r : Remote) (res : Result)
    (h : (action sub r).1 = Response.ok res) :
    res.success = truthy res.companyId ∧
    (res.success = true → truthy res.customerError = true →
      res.message = "Company created successfully! Note: " ++ res.customerError.getD "") := by
  rcases hco : existingCompanyOf sub r with _ | comp
  · rcases hcc : r.companyCreateErrors with _ | ⟨e, es⟩
    · rcases hcu : r.companyCreateUserErrors with _ | ⟨u, us⟩
      · rw [action_created sub r hco hcc hcu] at h
        simp only [Response.ok.injEq] at h
        subst h
        rw [aggregate_companyId, aggregate_customerError]
        exact aggregate_main _ _ _ (customerPhase_inv sub r (existingCustomerOf r))
      · rw [action_errUser sub r hco hcc (by simp [hcu])] at h
        simp at h
    · rw [action_errGql sub r hco (by simp [hcc])] at h
      simp at h
  · rw [action_reused sub r comp hco] at h
    simp only [Response.ok.injEq] at h
    subst h
    rw [aggregate_companyId, aggregate_customerError]
    exact aggregate_main _ _ _ (customerPhase_inv sub r (existingCustomerOf r))

theorem C7_witness :
    (action baseSub c7Remote).1 = Response.ok c7Result ∧
    (c7Result.success = truthy c7Result.companyId ∧
      (c7Result.success = true → truthy c7Result.customerError = true →
        c7Result.message =
          "Company created successfully! Note: " ++ c7Result.customerError.getD "")) :=
  ⟨by decide, C7_success_iff_companyId baseSub c7Remote c7Result (by decide)⟩

/-- C8: with a tax id submitted and a location found, the tax-settings
mutation is issued, and whatever GraphQL errors it returns (including the
message that the mutation does not exist on type Mutation) have no effect on
the outcome: the run is independent of the tax response, and the final
response is the result shape with success true, both ids populated, the
fixed all-success message and a null customerError. -/
theorem C8_tax_error_tolerated (sub : Submission) (r : Remote) (c : Customer)
    (rest : List Customer) (cid : String) (loc : CompanyLocation)
    (locs : List CompanyLocation)
    (hec : r.customersByEmail = c :: rest) (hcnid : c.id ≠ "")
    (hco : existingCompanyOf sub r = none)
    (hcc : r.companyCreateErrors = []) (hcu : r.companyCreateUserErrors = [])
    (hcid : r.companyCreateId = some cid) (hcidne : cid ≠ "")
    (haddr : presentNonempty sub.address1 = true)
    (hlocs : r.locations = loc :: locs)
    (htax : presentNonempty sub.taxId = true) :
    Call.setTaxId loc.id (jsTrim (sub.taxId.getD "")) ∈ (action sub r).2 ∧
    (action sub r).1 = Response.ok
      { success := true, companyId := some cid, customerId := some c.id,
        message := "Company and customer created successfully!",
        customerError := none } ∧
    action sub { r with taxErrors := [] } = action sub r := by
  have hecs : existingCustomerOf r = some c := by simp [existingCustomerOf, hec]
  have htr : truthy (some cid) = true := by simp [truthy, hcidne]
  refine ⟨?_, ?_, rfl⟩
  · rw [action_created sub r hco hcc hcu, hcid]
    have hmem : Call.setTaxId loc.id (jsTrim (sub.taxId.getD "")) ∈
        addressPhase sub r (some cid) := by
      unfold addressPhase
      rw [htr]
      simp only [if_true, haddr, hlocs]
      simp [htax]
    simp only [List.mem_append]
    exact Or.inl (Or.inl (Or.inr hmem))
  · rw [action_created sub r hco hcc hcu, hecs, hcid]
    unfold customerPhase aggregate
    simp [truthy, hcidne, hcnid]

theorem C8_witness :
    Call.setTaxId c8Loc.id (jsTrim (c8Sub.taxId.getD "")) ∈ (action c8Sub c8Remote).2 ∧
    (action c8Sub c8Remote).1 = Response.ok
      { success := true, companyId := some "gid-co-8",
        customerId := some c3Customer.id,
        message := "Company and customer created successfully!",
        customerError := none } ∧
    action c8Sub { c8Remote with taxErrors := [] } = action c8Sub c8Remote :=
  C8_tax_error_tolerated c8Sub c8Remote c3Customer [] "gid-co-8" c8Loc []
    rfl (by decide) (by decide) rfl rfl rfl (by decide) (by decide) rfl (by decide)

/-- C9 counterexample: with an existing customer and a failing companyCreate,
the handler returns the error shape with HTTP 400 even though the
customerUpdate mutation has already been issued, refuting the claim that the
error shape is returned only before any remote mutation has been
attempted. -/
theorem C9_counterexample :
    (action baseSub c9Remote).1 =
      Response.err "Failed to create company" ["Name has already been taken"] 400 ∧
    Call.updateCustomer (customerUpdateInput baseSub c3Customer) ∈ (action baseSub c9Remote).2 :=
  ⟨by decide, by decide⟩

/-- C9 amended: the error shape is returned exactly when company creation
fails (GraphQL errors or userErrors on companyCreate, the company-resolution
having found nothing); that point lies after the eager customer-update
mutation of the existing-customer path, so the error shape can follow a
completed remote mutation.  When it is returned, the trace ends at the
companyCreate call: nothing downstream is attempted, and once a company id
is obtained every later failure is reported through the result shape. -/
theorem C9_amended_err_shape (sub : Submission) (r : Remote) :
    isErr (action sub r).1 =
      ((existingCompanyOf sub r).isNone &&
        (!r.companyCreateErrors.isEmpty || !r.companyCreateUserErrors.isEmpty)) ∧
    (isErr (action sub r).1 = true →
      (action sub r).2.getLast? =
        some (Call.companyCreate (companyCreateInputOf sub (existingCustomerOf r)))) := by
  rcases hco : existingCompanyOf sub r with _ | comp
  · rcases hcc : r.companyCreateErrors with _ | ⟨e, es⟩
    · rcases hcu : r.companyCreateUserErrors with _ | ⟨u, us⟩
      · rw [action_created sub r hco hcc hcu]
        simp [isErr]
      · rw [action_errUser sub r hco hcc (by simp [hcu])]
        simp [isErr, List.getLast?_concat, hcu]
    · rw [action_errGql sub r hco (by simp [hcc])]
      simp [isErr, List.getLast?_concat, hcc]
  · rw [action_reused sub r comp hco]
    simp [isErr]

theorem C9_amended_witness :
    isErr (action baseSub c9Remote).1 =
      ((existingCompanyOf baseSub c9Remote).isNone &&
        (!c9Remote.companyCreateErrors.isEmpty || !c9Remote.companyCreateUserErrors.isEmpty)) ∧
    (isErr (action baseSub c9Remote).1 = true →
      (action baseSub c9Remote).2.getLast? =
        some (Call.companyCreate (companyCreateInputOf baseSub (existingCustomerOf c9Remote)))) :=
  C9_amended_err_shape baseSub c9Remote

/-- C10: a customer located by the fallback search is accepted only if its
lower-cased email exactly equals the lower-cased, trimmed submitted
userEmail; when no located record passes that comparison, no fallback
customerUpdate is issued and the original creation error message is
recorded as customerError. -/
theorem C10_fallback_exact_match (sub : Submission) (r : Remote) (msg : String)
    (tl : List String) (hec : r.customersByEmail = [])
    (hcc : r.companyCreateErrors = []) (hcu : r.companyCreateUserErrors = [])
    (hgql : r.customerCreateErrors = [])
    (huerr : r.customerCreateUserErrors = msg :: tl)
    (hmsg : includes msg "Email has already been taken" = true) :
    (foundCustomerOf sub (fallbackResults sub r).1).all
      (fun c => jsToLower c.email == jsTrim (jsToLower sub.userEmail)) = true ∧
    (foundCustomerOf sub (fallbackResults sub r).1 = none →
      (action sub r).2.all (fun k => !isFallbackUpdate k) = true ∧
      (okResult (action sub r).1).map Result.customerError = some (some msg)) := by
  have hecn : existingCustomerOf r = none := by simp [existingCustomerOf, hec]
  constructor
  · cases hf : foundCustomerOf sub (fallbackResults sub r).1 with
    | none => rfl
    | some fc =>
      unfold foundCustomerOf at hf
      simpa using List.find?_some hf
  · intro hnone
    have hcp := customerPhase_conflict_notfound sub r msg tl hgql huerr hmsg hnone
    rcases hcom : existingCompanyOf sub r with _ | comp
    · rw [action_created sub r hcom hcc hcu, hecn, hcp, linkPhase_noCustomer]
      refine ⟨?_, by simp [okResult, aggregate_customerError]⟩
      have hp1 := all_phase1 (fun k => !isFallbackUpdate k) sub r
        (fun q => rfl) (fun i => rfl)
      have hp2 := all_resolve (fun k => !isFallbackUpdate k) sub rfl
      have hp3 := all_metafield (fun k => !isFallbackUpdate k) sub none
        r.companyCreateId (fun o n k v => rfl)
      have hp4 := all_address (fun k => !isFallbackUpdate k) sub r
        r.companyCreateId (fun s => rfl) (fun a b => rfl) (fun a ad => rfl)
        (fun a b => rfl)
      have hp5 := all_search (fun k => !isFallbackUpdate k) sub r
        (fun q => rfl) (fun q => rfl) rfl
      simp only [List.all_append, List.all_cons, List.all_nil, Bool.and_eq_true,
        and_true]
      repeat' constructor
      all_goals
        first
          | exact hp1
          | exact hp2
          | exact hp3
          | exact hp4
          | exact hp5
    · rw [action_reused sub r comp hcom, hecn, hcp, linkPhase_noCustomer,
        metafieldPhase_some]
      refine ⟨?_, by simp [okResult, aggregate_customerError]⟩
      have hp1 := all_phase1 (fun k => !isFallbackUpdate k) sub r
        (fun q => rfl) (fun i => rfl)
      have hp2 := all_resolve (fun k => !isFallbackUpdate k) sub rfl
      have hp4 := all_address (fun k => !isFallbackUpdate k) sub r
        (some comp.id) (fun s => rfl) (fun a b => rfl) (fun a ad => rfl)
        (fun a b => rfl)
      have hp5 := all_search (fun k => !isFallbackUpdate k) sub r
        (fun q => rfl) (fun q => rfl) rfl
      simp only [List.all_append, List.all_cons, List.all_nil, Bool.and_eq_true,
        and_true]
      repeat' constructor
      all_goals
        first
          | exact hp1
          | exact hp2
          | exact hp4
          | exact hp5

theorem C10_witness :
    (foundCustomerOf baseSub (fallbackResults baseSub c10Remote).1).all
      (fun c => jsToLower c.email == jsTrim (jsToLower baseSub.userEmail)) = true ∧
    (foundCustomerOf baseSub (fallbackResults baseSub c10Remote).1 = none →
      (action baseSub c10Remote).2.all (fun k => !isFallbackUpdate k) = true ∧
      (okResult (action baseSub c10Remote).1).map Result.customerError =
        some (some "Email has already been taken")) :=
  C10_fallback_exact_match baseSub c10Remote "Email has already been taken" []
    rfl rfl rfl rfl rfl (by decide)
